import Mathlib

/-!
Verification of the prospyr connection module (`src/prospyr/connection.py`).

The module manages a process-wide registry of named `Connection` objects,
validates API base URLs, and joins path segments onto URLs.  The URL
machinery of the Python code lives in the external `urlobject` library
(backed by the standard library's `urlsplit`/`urlunsplit` and
`posixpath.join`); those collaborators are embedded here as executable Lean
functions so that `validate_url`, `url_join` and `Connection` can be
translated directly from the source.
-/

namespace Prospyr

/-- Errors raised by the connection module: `valueError` models Python's
builtin `ValueError` (the spec's `DuplicateConnectionError`), `misconfigured`
models `prospyr.exceptions.MisconfiguredError` (the spec's
`ConfigurationError`).  Each carries the human-readable message. -/
inductive PWError where
  | valueError (msg : String)
  | misconfigured (msg : String)
deriving DecidableEq, Repr

/-- The five components produced by `urlsplit`: scheme, network location,
path, query and fragment. -/
structure SplitUrl where
  scheme : String
  netloc : String
  path : String
  query : String
  fragment : String
deriving DecidableEq, Repr

/-- Characters allowed in a URL scheme (letters, digits, `+`, `-`, `.`),
as in the standard library's `scheme_chars`. -/
def schemeChar (c : Char) : Bool :=
  c.isAlpha || c.isDigit || c == '+' || c == '-' || c == '.'

/-- Split a character list at the first occurrence of `sep`: the part
before it and the part after it (the whole list and `[]` when absent),
mirroring Python's `str.split(sep, 1)`. -/
def splitAtFirst (sep : Char) (cs : List Char) : List Char × List Char :=
  (cs.takeWhile (fun c => c != sep),
    match cs.dropWhile (fun c => c != sep) with
    | [] => []
    | _ :: t => t)

/-- The standard library's `urlsplit`, as used by `urlobject` to expose
`scheme`, `netloc` and `path` of a URL string: an optional scheme before a
colon (lowercased; only when the prefix is a letter followed by scheme
characters), a netloc after `//` running up to the next `/`, `?` or `#`,
then the fragment split off at the first `#` and the query at the first
`?`. -/
def urlsplit (url : String) : SplitUrl :=
  let cs := url.data
  let before := cs.takeWhile (fun c => c != ':')
  let hasColon := (cs.dropWhile (fun c => c != ':')) != []
  let schemeOk := hasColon && before != [] && before.all schemeChar
      && (before.headD ' ').isAlpha
  let scheme : String := if schemeOk then String.mk (before.map Char.toLower) else ""
  let rest := if schemeOk then (cs.dropWhile (fun c => c != ':')).tail else cs
  let hasNetloc : Bool := match rest with
    | '/' :: '/' :: _ => true
    | _ => false
  let netloc := if hasNetloc then
      (rest.drop 2).takeWhile (fun c => c != '/' && c != '?' && c != '#')
    else []
  let rest2 := if hasNetloc then
      (rest.drop 2).dropWhile (fun c => c != '/' && c != '?' && c != '#')
    else rest
  let (beforeFrag, frag) := splitAtFirst '#' rest2
  let (path, query) := splitAtFirst '?' beforeFrag
  ⟨scheme, String.mk netloc, String.mk path, String.mk query, String.mk frag⟩

/-- The part of a character list after its last `'@'` (the whole list when
there is none), mirroring `str.rpartition('@')`. -/
def afterLastAt (cs : List Char) : List Char :=
  (cs.reverse.takeWhile (fun c => c != '@')).reverse

/-- The `hostname` accessor of a split URL: the netloc minus any user-info
(before the last `@`) and port (after `:`), with IPv6 brackets honoured,
lowercased.  Empty string models Python's falsy `None`/`''`. -/
def SplitUrl.hostname (u : SplitUrl) : String :=
  let hostinfo := afterLastAt u.netloc.data
  let host := if hostinfo.contains '[' then
      ((hostinfo.dropWhile (fun c => c != '[')).tail).takeWhile (fun c => c != ']')
    else hostinfo.takeWhile (fun c => c != ':')
  String.mk (host.map Char.toLower)

/-- Python's `str.startswith`, executed on the character lists: does `s`
start with `p`? -/
def strStartsWith (s p : String) : Bool :=
  p.data.isPrefixOf s.data

/-- Python's `str.endswith`, executed on the character lists: does `s`
end with `p`? -/
def strEndsWith (s p : String) : Bool :=
  p.data.isSuffixOf s.data

/-- The standard library's `urlunsplit`: reassemble the five components
into a URL string. -/
def urlunsplit (u : SplitUrl) : String :=
  let url1 := u.path
  let url2 := if u.netloc != "" || (url1 != "" && strStartsWith url1 "//") then
      "//" ++ u.netloc ++ (if url1 != "" && !(strStartsWith url1 "/") then "/" ++ url1 else url1)
    else url1
  let url3 := if u.scheme != "" then u.scheme ++ ":" ++ url2 else url2
  let url4 := if u.query != "" then url3 ++ "?" ++ u.query else url3
  if u.fragment != "" then url4 ++ "#" ++ u.fragment else url4

/-- `URLObject.with_path`: replace the path component of a URL string,
keeping the other components. -/
def withPath (u p : String) : String :=
  urlunsplit { urlsplit u with path := p }

/-- `posixpath.join` restricted to two arguments, as used by
`URLPath.add` and `URLPath.add_segment`: an absolute second argument
replaces the first, otherwise the two are joined with a `/` separator
unless the first is empty or already ends in `/`. -/
def pjoin (a b : String) : String :=
  if strStartsWith b "/" then b
  else if a == "" || strEndsWith a "/" then a ++ b
  else a ++ "/" ++ b

/-- The UTF-8 bytes of a character, as natural numbers. -/
def utf8Bytes (c : Char) : List Nat :=
  let n := c.toNat
  if n < 0x80 then [n]
  else if n < 0x800 then [0xC0 + n / 64, 0x80 + n % 64]
  else if n < 0x10000 then [0xE0 + n / 4096, 0x80 + (n / 64) % 64, 0x80 + n % 64]
  else [0xF0 + n / 262144, 0x80 + (n / 4096) % 64, 0x80 + (n / 64) % 64, 0x80 + n % 64]

/-- Bytes left untouched by Python's `urllib.quote(..., safe='')`:
ASCII letters, digits and `-`, `.`, `_`, `~`. -/
def unreservedByte (n : Nat) : Bool :=
  (65 ≤ n && n ≤ 90) || (97 ≤ n && n ≤ 122) || (48 ≤ n && n ≤ 57)
    || n == 45 || n == 46 || n == 95 || n == 126

/-- One of the sixteen uppercase hexadecimal digit characters. -/
def hexDigitChar (n : Nat) : Char :=
  if n < 10 then Char.ofNat (48 + n) else Char.ofNat (55 + n)

/-- `%XX` percent-escape of one byte. -/
def percentByte (n : Nat) : String :=
  String.mk ['%', hexDigitChar (n / 16), hexDigitChar (n % 16)]

/-- `urlobject`'s `path_encode`: percent-encode a segment's UTF-8 bytes,
leaving only unreserved bytes as-is (`quote(segment.encode('utf-8'),
safe='')`). -/
def pathEncode (s : String) : String :=
  String.join (s.data.map (fun c =>
    String.join ((utf8Bytes c).map (fun n =>
      if unreservedByte n then String.singleton (Char.ofNat n) else percentByte n))))

/-- `URLObject.add_path`: join a (possibly multi-segment, possibly
absolute) path string onto the URL's path. -/
def addPath (u p : String) : String :=
  withPath u (pjoin (urlsplit u).path p)

/-- `URLObject.add_path_segment`: percent-encode one segment and join it
onto the URL's path. -/
def addPathSegment (u seg : String) : String :=
  withPath u (pjoin (urlsplit u).path (pathEncode seg))

/-- One scan step of `re.search('/v\d', url)`: true when the character list
contains a `'/'` immediately followed by `'v'` and a digit, anywhere. -/
def hasVSearchAux (cs : List Char) : Bool :=
  match cs with
  | '/' :: rest =>
    (match rest with
     | 'v' :: d :: _ => d.isDigit
     | _ => false) || hasVSearchAux rest
  | _ :: rest => hasVSearchAux rest
  | [] => false

/-- `re.search('/v\d', url)` viewed as a Boolean: does the URL string
contain `/v` immediately followed by a digit anywhere? -/
def hasVersionSegment (url : String) : Bool :=
  hasVSearchAux url.data

/-- Message of the scheme check of `validate_url`. -/
def schemeMsg (url : String) : String :=
  "ProsperWorks API URL `" ++ url ++ "` must include a scheme (http, https)"

/-- Message of the hostname check of `validate_url`. -/
def hostnameMsg (url : String) : String :=
  "ProsperWorks API URL `" ++ url ++ "` must include a hostname"

/-- Message of the version-segment check of `validate_url`. -/
def versionMsg (url : String) : String :=
  "ProsperWorks API URL `" ++ url ++ "` should not include a \"version\" path segment"

/-- `validate_url`: true or `MisconfiguredError` if `url` is invalid.
Checks, in order: the scheme is one of http/https, the hostname is
nonempty, and the raw URL string does not match `re.search('/v\d', url)`. -/
def validate_url (url : String) : Except PWError Bool :=
  if (urlsplit url).scheme = "" ∨
      ¬ ((urlsplit url).scheme = "http" ∨ (urlsplit url).scheme = "https") then
    .error (.misconfigured (schemeMsg url))
  else if (urlsplit url).hostname = "" then
    .error (.misconfigured (hostnameMsg url))
  else if hasVersionSegment url then
    .error (.misconfigured (versionMsg url))
  else
    .ok true

/-- `url_join(base, *paths)`: append `paths` to `base`.  The Python loop
body ends in `return`, so only the first path (if any) is applied. -/
def url_join (base : String) (paths : List String) : String :=
  match paths with
  | [] => base
  | p :: _ => addPath base p

/-- An HTTP session as the module uses it: persistent headers plus the
transport behaviour, modelled as a function from verb name, URL and the
forwarded arguments (of arbitrary type `Args`) to the transport's response
(of arbitrary type `Resp`). -/
structure Session (Args Resp : Type) where
  headers : List (String × String)
  call : String → String → Args → Resp

/-- One `dict.__setitem__` on an association list of headers: replace the
value in place when the key is present, append otherwise. -/
def setHeader (hs : List (String × String)) (k v : String) : List (String × String) :=
  match hs with
  | [] => [(k, v)]
  | (k', v') :: t => if k' = k then (k, v) :: t else (k', v') :: setHeader t k v

/-- `Connection._get_session`: start from a fresh transport session and
`update` its headers with the five defaults, in the dict's insertion
order. -/
def _get_session {Args Resp : Type} (fresh : Session Args Resp)
    (email token : String) : Session Args Resp :=
  let hs1 := setHeader fresh.headers "X-PW-Application" "developer_api"
  let hs2 := setHeader hs1 "X-PW-AccessToken" token
  let hs3 := setHeader hs2 "X-PW-UserEmail" email
  let hs4 := setHeader hs3 "Accept" "application/json"
  let hs5 := setHeader hs4 "Content-Type" "application/json"
  { fresh with headers := hs5 }

/-- A `Connection`: authenticated session, account email, validated base
URL and the versioned API URL. -/
structure Connection (Args Resp : Type) where
  session : Session Args Resp
  email : String
  base_url : String
  api_url : String

/-- `Connection.__init__(url, email, token, version='v1')`: build the
session from the credentials, keep the base URL, and append the version
as one path segment to obtain `api_url`. -/
def Connection.init {Args Resp : Type} (fresh : Session Args Resp)
    (url email token version : String) : Connection Args Resp :=
  { session := _get_session fresh email token
    email := email
    base_url := url
    api_url := addPathSegment url version }

/-- `Connection.http_method`: send an HTTP request by looking up the verb
method on the session and forwarding the URL and arguments unchanged. -/
def Connection.http_method {Args Resp : Type} (c : Connection Args Resp)
    (method url : String) (a : Args) : Resp :=
  c.session.call method url a

/-- `Connection.build_absolute_url`: resolve `path` against `api_url`. -/
def Connection.build_absolute_url {Args Resp : Type} (c : Connection Args Resp)
    (path : String) : String :=
  url_join c.api_url [path]

/-- The six verb names recognised by `Connection.__getattr__`. -/
def httpVerbs : List String :=
  ["get", "post", "put", "patch", "delete", "options"]

/-- `Connection.__getattr__`: for a verb name, a callable equal to
`functools.partial(self.http_method, name)`; for any other (undefined)
attribute name, `none`, modelling the `AttributeError` fall-through. -/
def Connection.getattrFallback {Args Resp : Type} (c : Connection Args Resp)
    (name : String) : Option (String → Args → Resp) :=
  if name ∈ httpVerbs then some (c.http_method name) else none

/-- The module-wide `_connections` registry: an association list from
connection name to `Connection`. -/
abbrev Registry (Args Resp : Type) := List (String × Connection Args Resp)

/-- The module-level `_default_url` constant. -/
def _default_url : String := "https://api.prosperworks.com/developer_api/"

/-- The `ValueError` message of `connect` for a duplicate name. -/
def dupMsg (name email : String) : String :=
  "`" ++ name ++ "` is already connected using account \"" ++ email ++ "\""

/-- The `MisconfiguredError` message of `get` for an unknown name. -/
def missingMsg (name : String) : String :=
  if name = "default" then
    "There is no default connection. First try prospyr.connect(...)"
  else
    "There is no connection named \"" ++ name ++
      "\". First try prospyr.connect(..., name=\"" ++ name ++ "\")"

/-- `connect(email, token, url, name)`: refuse a duplicate name, validate
the URL, then construct the `Connection` (version defaulting to `v1`),
store it under `name` and return it together with the updated registry. -/
def connect {Args Resp : Type} (fresh : Session Args Resp)
    (reg : Registry Args Resp) (email token url name : String) :
    Except PWError (Connection Args Resp × Registry Args Resp) :=
  match reg.lookup name with
  | some existing => .error (.valueError (dupMsg name existing.email))
  | none =>
    match validate_url url with
    | .error e => .error e
    | .ok _ =>
      let conn := Connection.init fresh url email token "v1"
      .ok (conn, (name, conn) :: reg)

/-- `get(name)`: fetch a connection by name, or fail with
`MisconfiguredError` whose message depends on whether `name` is
`"default"`. -/
def get {Args Resp : Type} (reg : Registry Args Resp) (name : String) :
    Except PWError (Connection Args Resp) :=
  match reg.lookup name with
  | some conn => .ok conn
  | none => .error (.misconfigured (missingMsg name))

/-- Python's `str.split('/')`, executed on the character lists. -/
def splitOnSlash (cs : List Char) : List (List Char) :=
  match cs with
  | [] => [[]]
  | '/' :: rest => [] :: splitOnSlash rest
  | c :: rest =>
    match splitOnSlash rest with
    | [] => [[c]]
    | s :: ss => (c :: s) :: ss

/-- Modelled from the spec's words for claim C3: the path of the URL
contains "a path component matching the pattern forward-slash, letter 'v',
one or more digits".  Stated on the path's slash-separated components, to
compare the spec's predicate with what the code actually checks. -/
def specPathHasVersionComponent (url : String) : Bool :=
  (splitOnSlash (urlsplit url).path.data).any (fun seg =>
    match seg with
    | 'v' :: ds => !ds.isEmpty && ds.all Char.isDigit
    | _ => false)

/-! Helper lemmas and sample objects used by the theorems below. -/

/-- Looking up the key just set returns the value just set. -/
theorem lookup_setHeader_self (k : String) (hs : List (String × String)) (v : String) :
    (setHeader hs k v).lookup k = some v := by
  induction hs with
  | nil => simp [setHeader, List.lookup]
  | cons p t ih =>
    obtain ⟨k', v'⟩ := p
    by_cases h : k' = k
    · simp [setHeader, h, List.lookup]
    · simp only [setHeader, if_neg h, List.lookup]
      have hb : (k == k') = false := by simp [Ne.symm h]
      simp [hb, ih]

/-- Setting one key leaves lookups of every other key unchanged. -/
theorem lookup_setHeader_ne (k j : String) (h : j ≠ k) (hs : List (String × String))
    (v : String) : (setHeader hs k v).lookup j = hs.lookup j := by
  induction hs with
  | nil =>
    have hb : (j == k) = false := by simp [h]
    simp [setHeader, List.lookup, hb]
  | cons p t ih =>
    obtain ⟨k', v'⟩ := p
    by_cases hk : k' = k
    · subst hk
      have hb : (j == k') = false := by simp [h]
      simp [setHeader, List.lookup, hb]
    · simp only [setHeader, if_neg hk, List.lookup]
      cases hjk : (j == k') <;> simp [ih]

/-- A concrete transport session over `Nat` arguments and responses, used
to instantiate theorems at concrete inputs. -/
def sampleSession : Session Nat Nat :=
  { headers := [], call := fun _ _ n => n }

/-- A concrete connection built by `Connection.init`. -/
def sampleConn : Connection Nat Nat :=
  Connection.init sampleSession "https://x.com/" "a@b.com" "t" "v1"

/-- A concrete one-entry registry. -/
def sampleRegistry : Registry Nat Nat :=
  [("default", sampleConn)]

/-! The claims. -/

/-- C1: for every email, token, URL that passes validation, and name not
already registered, `connect` returns a `Connection` and stores exactly
that object under the name, so that a subsequent `get name` returns the
same `Connection` the `connect` returned. -/
theorem connect_get_identity {Args Resp : Type} (fresh : Session Args Resp)
    (reg : Registry Args Resp) (email token url name : String)
    (h1 : reg.lookup name = none) (h2 : validate_url url = .ok true) :
    ∃ (conn : Connection Args Resp) (reg2 : Registry Args Resp),
      connect fresh reg email token url name = .ok (conn, reg2) ∧
      get reg2 name = .ok conn := by
  refine ⟨Connection.init fresh url email token "v1",
    (name, Connection.init fresh url email token "v1") :: reg, ?_, ?_⟩
  · unfold connect
    rw [h1, h2]
  · unfold get
    simp [List.lookup]

/-- Witness for C1 at a concrete empty registry and the default API URL. -/
theorem connect_get_identity_witness :
    ∃ (conn : Connection Nat Nat) (reg2 : Registry Nat Nat),
      connect sampleSession [] "a@b.com" "t"
          "https://api.example.com/developer_api/" "default" = .ok (conn, reg2) ∧
      get reg2 "default" = .ok conn :=
  connect_get_identity sampleSession [] "a@b.com" "t"
    "https://api.example.com/developer_api/" "default" rfl (by rfl)

/-- C2: for a name already present in the registry, `connect` fails with a
`ValueError`-class error whose message includes the email of the
already-registered connection, and the original connection remains
retrievable via `get`. -/
theorem connect_duplicate_name {Args Resp : Type} (fresh : Session Args Resp)
    (reg : Registry Args Resp) (email token url name : String)
    (c : Connection Args Resp) (h : reg.lookup name = some c) :
    connect fresh reg email token url name
      = .error (.valueError (dupMsg name c.email)) ∧
    (∃ before after, dupMsg name c.email = before ++ c.email ++ after) ∧
    get reg name = .ok c := by
  refine ⟨?_, ⟨"`" ++ name ++ "` is already connected using account \"", "\"", rfl⟩, ?_⟩
  · unfold connect
    rw [h]
  · unfold get
    rw [h]

/-- Witness for C2 at a concrete one-entry registry. -/
theorem connect_duplicate_name_witness :
    connect sampleSession sampleRegistry "new@c.com" "t2" "https://ok.example.com/"
        "default" = .error (.valueError (dupMsg "default" sampleConn.email)) ∧
    (∃ before after,
      dupMsg "default" sampleConn.email = before ++ sampleConn.email ++ after) ∧
    get sampleRegistry "default" = .ok sampleConn :=
  connect_duplicate_name sampleSession sampleRegistry "new@c.com" "t2"
    "https://ok.example.com/" "default" sampleConn rfl

/-- C7: `get` on an unregistered name fails with `MisconfiguredError`; for
`"default"` the message instructs establishing a default connection, for
any other name the message contains that name (twice: once naming it,
once in the suggested `prospyr.connect(..., name=...)` call). -/
theorem get_missing_name {Args Resp : Type} (reg : Registry Args Resp) (name : String)
    (h : reg.lookup name = none) :
    get reg name = .error (.misconfigured (missingMsg name)) ∧
    (name = "default" →
      missingMsg name = "There is no default connection. First try prospyr.connect(...)") ∧
    (name ≠ "default" →
      ∃ before mid after, missingMsg name = before ++ name ++ mid ++ name ++ after) := by
  refine ⟨?_, ?_, ?_⟩
  · unfold get
    rw [h]
  · intro hd
    rw [hd]
    rfl
  · intro hd
    refine ⟨"There is no connection named \"",
      "\". First try prospyr.connect(..., name=\"", "\")", ?_⟩
    unfold missingMsg
    rw [if_neg hd]

/-- Witness for C7 at the empty registry and the name `"foo"`. -/
theorem get_missing_name_witness :
    get ([] : Registry Nat Nat) "foo" = .error (.misconfigured (missingMsg "foo")) ∧
    (∃ before mid after, missingMsg "foo" = before ++ "foo" ++ mid ++ "foo" ++ after) :=
  ⟨(get_missing_name ([] : Registry Nat Nat) "foo" rfl).1,
   (get_missing_name ([] : Registry Nat Nat) "foo" rfl).2.2 (by decide)⟩

/-- C10: `connect` checks for a duplicate name before validating the URL:
with a registered name it raises the duplicate-name `ValueError` for every
URL, validating or not, and the registry entry is untouched. -/
theorem connect_duplicate_before_validation {Args Resp : Type}
    (fresh : Session Args Resp) (reg : Registry Args Resp)
    (email token url name : String) (c : Connection Args Resp)
    (h : reg.lookup name = some c) :
    connect fresh reg email token url name
      = .error (.valueError (dupMsg name c.email)) ∧
    get reg name = .ok c := by
  constructor
  · unfold connect
    rw [h]
  · unfold get
    rw [h]

/-- Witness for C10 at a URL that itself fails validation. -/
theorem connect_duplicate_before_validation_witness :
    connect sampleSession sampleRegistry "e2" "t2" "api.example.com" "default"
      = .error (.valueError (dupMsg "default" sampleConn.email)) ∧
    get sampleRegistry "default" = .ok sampleConn ∧
    validate_url "api.example.com" = .error (.misconfigured (schemeMsg "api.example.com")) :=
  ⟨(connect_duplicate_before_validation sampleSession sampleRegistry "e2" "t2"
      "api.example.com" "default" sampleConn rfl).1,
   (connect_duplicate_before_validation sampleSession sampleRegistry "e2" "t2"
      "api.example.com" "default" sampleConn rfl).2,
   rfl⟩

/-- C3 counterexample: at `"https://v2.example.com/"` the scheme is valid,
the hostname is present and the path (`"/"`) has no version-like component
in the spec's sense, yet `validate_url` fails — the code's
`re.search('/v\d', url)` also matches inside the network location. -/
theorem validate_url_spec_counterexample :
    validate_url "https://v2.example.com/"
      = .error (.misconfigured (versionMsg "https://v2.example.com/")) ∧
    (urlsplit "https://v2.example.com/").scheme = "https" ∧
    (urlsplit "https://v2.example.com/").hostname ≠ "" ∧
    specPathHasVersionComponent "https://v2.example.com/" = false :=
  ⟨by rfl, by rfl, by decide, by rfl⟩

/-- C3 (amended): `validate_url` fails with `MisconfiguredError` exactly
when the scheme is absent or not http/https, when the hostname is absent,
or when the raw URL string contains `/v` immediately followed by a digit
anywhere in the string (not only as a full path component); otherwise it
returns true, the first failing check failing immediately.  In particular
it returns true for `"https://api.example.com/developer_api/"` and fails
for `"api.example.com"`, `"https:///path"` and
`"https://api.example.com/v2/"`. -/
theorem validate_url_characterization (url : String) :
    (¬ ((urlsplit url).scheme = "http" ∨ (urlsplit url).scheme = "https") →
      validate_url url = .error (.misconfigured (schemeMsg url))) ∧
    (((urlsplit url).scheme = "http" ∨ (urlsplit url).scheme = "https") →
      (urlsplit url).hostname = "" →
      validate_url url = .error (.misconfigured (hostnameMsg url))) ∧
    (((urlsplit url).scheme = "http" ∨ (urlsplit url).scheme = "https") →
      (urlsplit url).hostname ≠ "" → hasVersionSegment url = true →
      validate_url url = .error (.misconfigured (versionMsg url))) ∧
    (((urlsplit url).scheme = "http" ∨ (urlsplit url).scheme = "https") →
      (urlsplit url).hostname ≠ "" → hasVersionSegment url = false →
      validate_url url = .ok true) ∧
    validate_url "https://api.example.com/developer_api/" = .ok true ∧
    validate_url "api.example.com"
      = .error (.misconfigured (schemeMsg "api.example.com")) ∧
    validate_url "https:///path"
      = .error (.misconfigured (hostnameMsg "https:///path")) ∧
    validate_url "https://api.example.com/v2/"
      = .error (.misconfigured (versionMsg "https://api.example.com/v2/")) := by
  have hne : ∀ s : String, (s = "http" ∨ s = "https") → ¬ s = "" := by
    rintro s (rfl | rfl) <;> decide
  refine ⟨?_, ?_, ?_, ?_, by rfl, by rfl, by rfl, by rfl⟩
  · intro h
    unfold validate_url
    rw [if_pos (Or.inr h)]
  · intro hs hh
    unfold validate_url
    rw [if_neg (by push_neg; exact ⟨hne _ hs, hs⟩), if_pos hh]
  · intro hs hh hv
    unfold validate_url
    rw [if_neg (by push_neg; exact ⟨hne _ hs, hs⟩), if_neg hh, if_pos hv]
  · intro hs hh hv
    unfold validate_url
    rw [if_neg (by push_neg; exact ⟨hne _ hs, hs⟩), if_neg hh, if_neg (by simp [hv])]

/-- Witness for C3 at a concrete valid URL. -/
theorem validate_url_characterization_witness :
    validate_url "http://example.com/foo" = .ok true :=
  (validate_url_characterization "http://example.com/foo").2.2.2.1
    (Or.inl (by rfl)) (by decide) (by rfl)

/-- C4: `url_join` with zero path segments returns the base unchanged;
with one segment it replaces the base's path by the joined path: the
segment itself when it is absolute, otherwise the base's path with the
segment appended (with a `/` separator unless the base's path is empty or
already ends in `/`).  In particular
`url_join "https://api.example.com/v1" ["widgets/123"]` yields
`"https://api.example.com/v1/widgets/123"`. -/
theorem url_join_single_segment (base p : String) :
    url_join base [] = base ∧
    (strStartsWith p "/" = true → url_join base [p] = withPath base p) ∧
    (strStartsWith p "/" = false →
      ((urlsplit base).path == "" || strEndsWith (urlsplit base).path "/") = true →
      url_join base [p] = withPath base ((urlsplit base).path ++ p)) ∧
    (strStartsWith p "/" = false →
      ((urlsplit base).path == "" || strEndsWith (urlsplit base).path "/") = false →
      url_join base [p] = withPath base ((urlsplit base).path ++ "/" ++ p)) ∧
    url_join "https://api.example.com/v1" ["widgets/123"]
      = "https://api.example.com/v1/widgets/123" := by
  refine ⟨rfl, ?_, ?_, ?_, by rfl⟩
  · intro h
    show addPath base p = withPath base p
    unfold addPath pjoin
    rw [if_pos h]
  · intro h1 h2
    show addPath base p = withPath base ((urlsplit base).path ++ p)
    unfold addPath pjoin
    rw [if_neg (by simp [h1]), if_pos h2]
  · intro h1 h2
    show addPath base p = withPath base ((urlsplit base).path ++ "/" ++ p)
    unfold addPath pjoin
    rw [if_neg (by simp [h1]), if_neg (by simp [h2])]

/-- Witness for C4 at a relative segment appended with a separator. -/
theorem url_join_single_segment_witness :
    url_join "https://x.com/a" ["b"]
      = withPath "https://x.com/a" ((urlsplit "https://x.com/a").path ++ "/" ++ "b") :=
  (url_join_single_segment "https://x.com/a" "b").2.2.2.1 (by rfl) (by rfl)

/-- C5: `url_join` with a non-empty list of path segments equals
`url_join` with just the first segment — the loop returns on its first
iteration, so all later segments are ignored. -/
theorem url_join_applies_first_only (base p : String) (ps : List String) :
    url_join base (p :: ps) = url_join base [p] :=
  rfl

/-- C6: a `Connection` built from `url`, `email`, `token` and a version
keeps `base_url = url` and sets `api_url` to the base URL with exactly the
one extra path segment `version`, appended once at construction; in
particular the base URL `"https://x.com/"` with version `"v1"` gives
`api_url = "https://x.com/v1"`. -/
theorem api_url_version_segment {Args Resp : Type} (fresh : Session Args Resp)
    (url email token version : String) :
    (Connection.init fresh url email token version).base_url = url ∧
    (Connection.init fresh url email token version).api_url
      = addPathSegment (Connection.init fresh url email token version).base_url version ∧
    (Connection.init fresh "https://x.com/" email token "v1").api_url
      = "https://x.com/v1" :=
  ⟨rfl, rfl, by rfl⟩

/-- C8: `http_method` forwards the verb, URL and arguments unchanged to
the session and returns its response unchanged; attribute access for each
of the six verb names yields the partial application of `http_method` to
that verb, and any other attribute name falls through to an
attribute-not-found result. -/
theorem verb_dispatch {Args Resp : Type} (c : Connection Args Resp) (name : String) :
    (∀ url a, c.http_method name url a = c.session.call name url a) ∧
    (name ∈ httpVerbs →
      c.getattrFallback name = some (fun url a => c.session.call name url a)) ∧
    (name ∉ httpVerbs → c.getattrFallback name = none) := by
  refine ⟨fun url a => rfl, ?_, ?_⟩
  · intro h
    unfold Connection.getattrFallback
    rw [if_pos h]
    rfl
  · intro h
    unfold Connection.getattrFallback
    rw [if_neg h]

/-- Witness for C8 at the verb `"get"` and the undefined name `"quux"`. -/
theorem verb_dispatch_witness :
    sampleConn.getattrFallback "get"
      = some (fun url a => sampleConn.session.call "get" url a) ∧
    sampleConn.getattrFallback "quux" = none :=
  ⟨(verb_dispatch sampleConn "get").2.1 (by decide),
   (verb_dispatch sampleConn "quux").2.2 (by decide)⟩

/-- C9: for every email and token, and whatever headers the fresh
transport session starts with, the session built by `_get_session`
carries the application identifier header, the access-token header equal
to the token, the user-email header equal to the email, and the
`Accept`/`Content-Type` headers set to `application/json`. -/
theorem session_headers {Args Resp : Type} (fresh : Session Args Resp)
    (email token : String) :
    (_get_session fresh email token).headers.lookup "X-PW-Application"
      = some "developer_api" ∧
    (_get_session fresh email token).headers.lookup "X-PW-AccessToken" = some token ∧
    (_get_session fresh email token).headers.lookup "X-PW-UserEmail" = some email ∧
    (_get_session fresh email token).headers.lookup "Accept"
      = some "application/json" ∧
    (_get_session fresh email token).headers.lookup "Content-Type"
      = some "application/json" := by
  unfold _get_session
  refine ⟨?_, ?_, ?_, ?_, ?_⟩
  · rw [lookup_setHeader_ne "Content-Type" "X-PW-Application" (by decide),
      lookup_setHeader_ne "Accept" "X-PW-Application" (by decide),
      lookup_setHeader_ne "X-PW-UserEmail" "X-PW-Application" (by decide),
      lookup_setHeader_ne "X-PW-AccessToken" "X-PW-Application" (by decide),
      lookup_setHeader_self]
  · rw [lookup_setHeader_ne "Content-Type" "X-PW-AccessToken" (by decide),
      lookup_setHeader_ne "Accept" "X-PW-AccessToken" (by decide),
      lookup_setHeader_ne "X-PW-UserEmail" "X-PW-AccessToken" (by decide),
      lookup_setHeader_self]
  · rw [lookup_setHeader_ne "Content-Type" "X-PW-UserEmail" (by decide),
      lookup_setHeader_ne "Accept" "X-PW-UserEmail" (by decide),
      lookup_setHeader_self]
  · rw [lookup_setHeader_ne "Content-Type" "Accept" (by decide),
      lookup_setHeader_self]
  · rw [lookup_setHeader_self]

end Prospyr
